import Mathlib

/-!
Shallow embedding of the kernel-capability probing module (`kerndat.c`) of a
checkpoint/restore tool, together with proofs of the specified properties.

External collaborators (mmap, stat, statfs, open/read on the pagemap file, the
sysctl gateway, the virtual-to-physical translator and the raw memfd syscall)
are modelled as explicit environment records holding their outcomes; each probe
is a pure function from its environment and the current capability cache to a
C-style return code and the updated cache.  Machine integers are modelled as
Nat/Int with explicit truncation where the C code casts.
-/

namespace Kerndat

/-- The capability cache, C `struct kerndat_s kdat`.  `tcp_max_wshare` and
`tcp_max_rshare` are C `int` fields, modelled as `Int`; the flags are C bools
and the remaining fields unsigned integers. -/
structure KerndatS where
  shmem_dev : Nat
  has_dirty_track : Bool
  zero_page_pfn : Nat
  last_cap : Nat
  tcp_max_wshare : Int
  tcp_max_rshare : Int
  has_memfd : Bool
deriving DecidableEq, Repr

/-- The static initializer of `kdat`: TCP limits `2U << 20` and `3U << 20`,
all other fields zero-initialized. -/
def kdatInit : KerndatS :=
  { shmem_dev := 0
    has_dirty_track := false
    zero_page_pfn := 0
    last_cap := 0
    tcp_max_wshare := 2 * 2 ^ 20
    tcp_max_rshare := 3 * 2 ^ 20
    has_memfd := false }

/-- errno `ENOSYS` (function not implemented). -/
def ENOSYS : Int := 38

/-- errno `EFAULT` (bad address). -/
def EFAULT : Int := 14

/-- The soft-dirty bit of a pagemap entry, `PME_SOFT_DIRTY = 1ULL << 55`. -/
def PME_SOFT_DIRTY : Nat := 2 ^ 55

/-- C conversion of an `int` value to `_Bool`: nonzero becomes true. -/
def cBool (i : Int) : Bool := decide (i ≠ 0)

/-- C conversion of a `_Bool` back to `int` (used when the result of
`kerndat_has_memfd_create`, declared `bool`, is stored into an `int`). -/
def cInt (b : Bool) : Int := if b then 1 else 0

/-- C cast of a `u32` value to (32-bit) `int`: values at or above `2^31`
wrap to negative. -/
def intOfU32 (v : Nat) : Int :=
  if v % 2 ^ 32 < 2 ^ 31 then ((v % 2 ^ 32 : Nat) : Int)
  else ((v % 2 ^ 32 : Nat) : Int) - 2 ^ 32

/-! ## TCP buffer limit reader -/

/-- Outcome of `sysctl_op(req, CTL_READ)` on the two three-element vectors
`net/ipv4/tcp_wmem` and `net/ipv4/tcp_rmem`: `none` when the read fails
(nonzero return), `some (wv, rv)` with the two u32 triples on success. -/
def SysctlTcpRes := Option ((Nat × Nat × Nat) × (Nat × Nat × Nat))

/-- `tcp_read_sysctl_limits`: on sysctl failure jump to `out` keeping the
cache untouched; on success clamp each cached bound with `min` against the
third vector element cast to `int`.  Returns 0 on every path. -/
def tcp_read_sysctl_limits (res : SysctlTcpRes) (k : KerndatS) : Int × KerndatS :=
  match res with
  | none => (0, k)
  | some (wv, rv) =>
    let k1 := { k with tcp_max_wshare := min k.tcp_max_wshare (intOfU32 wv.2.2) }
    let k2 := { k1 with tcp_max_rshare := min k1.tcp_max_rshare (intOfU32 rv.2.2) }
    (0, k2)

/-! ## Zero-page frame resolver -/

/-- Environment of `init_zero_page_pfn`: whether the test `mmap` succeeds,
whether the first word of the mapped page reads as zero, and the outcome of
`vaddr_to_pfn` as the pair (return code, value stored through the out
pointer into `kdat.zero_page_pfn`). -/
structure ZeroPageEnv where
  mmapOk : Bool
  wordIsZero : Bool
  translate : Int × Nat
deriving DecidableEq, Repr

/-- `init_zero_page_pfn`: a failed `mmap` returns 0 without touching the
cache; a nonzero first word returns -1 (after `BUG()`); otherwise
`vaddr_to_pfn` stores into `kdat.zero_page_pfn`, and a stored value of 0
forces the return code to -1. -/
def init_zero_page_pfn (e : ZeroPageEnv) (k : KerndatS) : Int × KerndatS :=
  if !e.mmapOk then (0, k)
  else if !e.wordIsZero then (-1, k)
  else
    let k1 := { k with zero_page_pfn := e.translate.2 }
    if k1.zero_page_pfn = 0 then (-1, k1) else (e.translate.1, k1)

/-! ## Shared-memory device prober -/

/-- Environment of `kerndat_get_shmemdev`: whether the test `mmap` succeeds,
and the outcome of `stat` on the map_files entry (`st_dev` on success). -/
structure ShmemdevEnv where
  mmapOk : Bool
  statRes : Except Unit Nat
deriving Repr

/-- `kerndat_get_shmemdev`: hard error (-1) when the mapping or the stat
fails, otherwise cache the backing device id and return 0. -/
def kerndat_get_shmemdev (e : ShmemdevEnv) (k : KerndatS) : Int × KerndatS :=
  if !e.mmapOk then (-1, k)
  else
    match e.statRes with
    | .error _ => (-1, k)
    | .ok dev => (0, { k with shmem_dev := dev })

/-! ## Dirty-page-tracking prober -/

/-- Environment of `kerndat_get_dirty_track`: whether the test `mmap` and the
`open` of `/proc/self/pagemap` succeed, the outcome of the `read` of the
pagemap entry (`error` for a negative return, `ok v` for the u64 read), and
the configuration flag `opts.track_mem`. -/
structure DirtyTrackEnv where
  mmapOk : Bool
  openOk : Bool
  readResult : Except Unit Nat
  trackMem : Bool
deriving Repr

/-- The pagemap value after the `read`: `pmap` is initialized to 0 and a
failed read leaves it untouched (the code logs the error and falls through). -/
def pmapOf (e : DirtyTrackEnv) : Nat :=
  match e.readResult with
  | .error _ => 0
  | .ok v => v

/-- `kerndat_get_dirty_track`: -1 on mmap or open failure; otherwise test
`pmap & PME_SOFT_DIRTY`: if set, record support and return 0; if unset,
return -1 when `opts.track_mem` demands tracking and 0 otherwise, leaving
the cache untouched. -/
def kerndat_get_dirty_track (e : DirtyTrackEnv) (k : KerndatS) : Int × KerndatS :=
  if !e.mmapOk then (-1, k)
  else if !e.openOk then (-1, k)
  else if pmapOf e &&& PME_SOFT_DIRTY ≠ 0 then (0, { k with has_dirty_track := true })
  else if e.trackMem then (-1, k)
  else (0, k)

/-! ## Capability-bound reader -/

/-- `get_last_cap`: a single-key sysctl read of `kernel/cap_last_cap` into
`kdat.last_cap`; the environment is the gateway outcome.  A failed read
returns the gateway's nonzero code (modelled -1) verbatim. -/
def get_last_cap (res : Except Unit Nat) (k : KerndatS) : Int × KerndatS :=
  match res with
  | .error _ => (-1, k)
  | .ok v => (0, { k with last_cap := v })

/-! ## Anonymous-memory-file-descriptor prober -/

/-- `kerndat_has_memfd_create`: the environment is the raw return value of
`sys_memfd_create(NULL, 0)`.  The function is declared `bool` in C, so its
`return -1` and `return 0` pass through the C `_Bool` conversion `cBool`.
`-ENOSYS` records no support, `-EFAULT` records support, anything else is
the unexpected-error path leaving the cache unchanged. -/
def kerndat_has_memfd_create (ret : Int) (k : KerndatS) : Bool × KerndatS :=
  if ret = -ENOSYS then (cBool 0, { k with has_memfd := false })
  else if ret = -EFAULT then (cBool 0, { k with has_memfd := true })
  else (cBool (-1), k)

/-! ## Phase orchestrators -/

/-- Names of the probes, used to record which probes a run executed. -/
inductive Probe
  | shmemdev
  | dirtyTrack
  | zeroPage
  | lastCap
  | tcpLimits
  | memfd
deriving DecidableEq, Repr

/-- Environment of the capture-phase orchestrator `kerndat_init`: one
environment per probe it may run. -/
structure CaptureEnv where
  shmem : ShmemdevEnv
  dirty : DirtyTrackEnv
  zero : ZeroPageEnv
  lastCapRes : Except Unit Nat
deriving Repr

/-- `kerndat_init`: `ret = kerndat_get_shmemdev(); if (!ret) ret =
kerndat_get_dirty_track(); if (!ret) ret = init_zero_page_pfn(); if (!ret)
ret = get_last_cap(); return ret;` — the trace of executed probes is
returned alongside the code and the cache. -/
def kerndat_init (e : CaptureEnv) (k : KerndatS) : Int × KerndatS × List Probe :=
  let r1 := kerndat_get_shmemdev e.shmem k
  if r1.1 ≠ 0 then (r1.1, r1.2, [Probe.shmemdev])
  else
    let r2 := kerndat_get_dirty_track e.dirty r1.2
    if r2.1 ≠ 0 then (r2.1, r2.2, [Probe.shmemdev, Probe.dirtyTrack])
    else
      let r3 := init_zero_page_pfn e.zero r2.2
      if r3.1 ≠ 0 then (r3.1, r3.2, [Probe.shmemdev, Probe.dirtyTrack, Probe.zeroPage])
      else
        let r4 := get_last_cap e.lastCapRes r3.2
        (r4.1, r4.2, [Probe.shmemdev, Probe.dirtyTrack, Probe.zeroPage, Probe.lastCap])

/-- Environment of the restore-phase orchestrator `kerndat_init_rst`. -/
structure RestoreEnv where
  tcpRes : SysctlTcpRes
  lastCapRes : Except Unit Nat
  memfdRet : Int

/-- `kerndat_init_rst`: TCP limits, then capability bound, then the memfd
probe; the `bool` result of the memfd probe is stored into the `int` `ret`
through `cInt`. -/
def kerndat_init_rst (e : RestoreEnv) (k : KerndatS) : Int × KerndatS × List Probe :=
  let r1 := tcp_read_sysctl_limits e.tcpRes k
  if r1.1 ≠ 0 then (r1.1, r1.2, [Probe.tcpLimits])
  else
    let r2 := get_last_cap e.lastCapRes r1.2
    if r2.1 ≠ 0 then (r2.1, r2.2, [Probe.tcpLimits, Probe.lastCap])
    else
      let r3 := kerndat_has_memfd_create e.memfdRet r2.2
      (cInt r3.1, r3.2, [Probe.tcpLimits, Probe.lastCap, Probe.memfd])

/-! ## Filesystem mount descriptor lookup -/

/-- The filesystem-kind keys, `KERNDAT_FS_STAT_DEVPTS = 0` and
`KERNDAT_FS_STAT_DEVTMPFS = 1`; `KERNDAT_FS_STAT_MAX = 2`. -/
def KERNDAT_FS_STAT_MAX : Nat := 2

/-- `DEVPTS_SUPER_MAGIC`. -/
def DEVPTS_SUPER_MAGIC : Nat := 0x1cd1

/-- `TMPFS_MAGIC`. -/
def TMPFS_MAGIC : Nat := 0x01021994

/-- The expected filesystem magic of each table entry: devpts for key 0,
tmpfs (devtmpfs) for key 1. -/
def fsMagicOf (which : Nat) : Nat :=
  if which = 0 then DEVPTS_SUPER_MAGIC else TMPFS_MAGIC

/-- A cached `struct stat` record.  Only the device number drives the
control flow of `kerndat_get_fs_stat` (it is the "populated" sentinel); the
inode number stands for the remaining payload fields. -/
structure CStat where
  st_dev : Nat
  st_ino : Nat
deriving DecidableEq, Repr

/-- Outcomes of the two syscalls `kerndat_get_fs_stat` may issue for one
entry: `statfsRes` is the `statfs` on the entry's path (`f_type` on
success), `statRes` the subsequent `stat` on the same path. -/
structure FsEnv where
  statfsRes : Except Unit Nat
  statRes : Except Unit CStat

/-- The `kstat` table state: the cached stat record per key.  The static
initializer zeroes every record, so the sentinel `st_dev = 0` means
"not yet probed". -/
def fsTableInit : Nat → CStat := fun _ => { st_dev := 0, st_ino := 0 }

/-- Result of one `kerndat_get_fs_stat` call: the returned pointer
(`none` for NULL), the table afterwards, and how many `statfs` and `stat`
syscalls the call issued. -/
structure FsCallOut where
  result : Option CStat
  table : Nat → CStat
  nStatfs : Nat
  nStat : Nat

/-- `kerndat_get_fs_stat`: out-of-range keys are rejected; a populated
entry (`st_dev != 0`) is returned with no syscall; otherwise `statfs` the
path, fail on error or on a magic mismatch without caching, else `stat`
the path into the table entry and return it.  (On a failed `stat` POSIX
leaves the buffer unspecified; the table is modelled unchanged there, and
no claim depends on that path.) -/
def kerndat_get_fs_stat (env : Nat → FsEnv) (which : Nat) (tbl : Nat → CStat) :
    FsCallOut :=
  if KERNDAT_FS_STAT_MAX ≤ which then ⟨none, tbl, 0, 0⟩
  else if (tbl which).st_dev ≠ 0 then ⟨some (tbl which), tbl, 0, 0⟩
  else
    match (env which).statfsRes with
    | .error _ => ⟨none, tbl, 1, 0⟩
    | .ok ftype =>
      if ftype ≠ fsMagicOf which then ⟨none, tbl, 1, 0⟩
      else
        match (env which).statRes with
        | .error _ => ⟨none, tbl, 1, 1⟩
        | .ok st => ⟨some st, fun i => if i = which then st else tbl i, 1, 1⟩

/-! ## Theorems -/

/-- C2: for every pair of three-element vectors reported by the sysctl
gateway, after `tcp_read_sysctl_limits` runs on the default cache the
cached bounds satisfy `tcp_max_wshare ≤ 2 MiB` and `tcp_max_rshare ≤
3 MiB` (the compile-time defaults are never raised); in particular a
reported wmem maximum of 1048576 yields `tcp_max_wshare = 1048576`. -/
theorem tcp_limits_never_raised (wv rv : Nat × Nat × Nat) :
    (tcp_read_sysctl_limits (some (wv, rv)) kdatInit).2.tcp_max_wshare ≤ 2 * 2 ^ 20 ∧
    (tcp_read_sysctl_limits (some (wv, rv)) kdatInit).2.tcp_max_rshare ≤ 3 * 2 ^ 20 ∧
    (wv.2.2 = 1048576 →
      (tcp_read_sysctl_limits (some (wv, rv)) kdatInit).2.tcp_max_wshare = 1048576) := by
  refine ⟨?_, ?_, ?_⟩
  · exact min_le_left _ _
  · exact min_le_left _ _
  · intro h
    simp only [tcp_read_sysctl_limits, h]
    norm_num [kdatInit, intOfU32]

/-- Witness for C2 at the spec's scenario vectors. -/
theorem tcp_limits_never_raised_witness :
    (tcp_read_sysctl_limits (some ((4096, 87380, 1048576), (4096, 87380, 4194304)))
      kdatInit).2.tcp_max_wshare = 1048576 :=
  (tcp_limits_never_raised (4096, 87380, 1048576) (4096, 87380, 4194304)).2.2 rfl

/-- C1 counterexample: on the path where the test-page mapping fails,
`init_zero_page_pfn` returns 0 (success) while `kdat.zero_page_pfn` is
still 0, contradicting the claim that success implies a non-zero cached
frame number on every path. -/
theorem init_zero_page_pfn_mmap_fail_cex :
    (init_zero_page_pfn ⟨false, true, (0, 0)⟩ kdatInit).1 = 0 ∧
    (init_zero_page_pfn ⟨false, true, (0, 0)⟩ kdatInit).2.zero_page_pfn = 0 := by
  constructor <;> rfl

/-- C1 amended: on every run whose test-page mapping succeeds, if
`init_zero_page_pfn` returns success then the cached zero-page frame number
is non-zero, and a resolved frame number of 0 is surfaced as failure (-1). -/
theorem init_zero_page_pfn_nonzero (e : ZeroPageEnv) (k : KerndatS)
    (hm : e.mmapOk = true) :
    ((init_zero_page_pfn e k).1 = 0 →
      (init_zero_page_pfn e k).2.zero_page_pfn ≠ 0) ∧
    (e.wordIsZero = true → e.translate.2 = 0 →
      (init_zero_page_pfn e k).1 = -1) := by
  constructor
  · intro h0
    simp only [init_zero_page_pfn, hm, Bool.not_true, Bool.false_eq_true, if_false] at h0 ⊢
    rcases hw : e.wordIsZero with _ | _
    · simp [hw] at h0
    · simp only [hw, Bool.not_true, Bool.false_eq_true, if_false] at h0 ⊢
      by_cases hz : e.translate.2 = 0
      · simp [hz] at h0
      · simp [hz]
  · intro hw hz
    simp [init_zero_page_pfn, hm, hw, hz]

/-- Witness for C1's amended theorem: a successful resolution caching
frame number 5. -/
theorem init_zero_page_pfn_nonzero_witness :
    (init_zero_page_pfn ⟨true, true, (0, 5)⟩ kdatInit).2.zero_page_pfn ≠ 0 :=
  (init_zero_page_pfn_nonzero ⟨true, true, (0, 5)⟩ kdatInit rfl).1 rfl

/-- C3: when the shared-memory device probe fails, `kerndat_init` runs no
other probe (its trace is exactly `[shmemdev]`, so the dirty-tracking,
zero-page and capability-bound probes do not execute) and returns the
shared-memory probe's failure code. -/
theorem kerndat_init_short_circuit (e : CaptureEnv) (k : KerndatS)
    (h : (kerndat_get_shmemdev e.shmem k).1 ≠ 0) :
    (kerndat_init e k).1 = (kerndat_get_shmemdev e.shmem k).1 ∧
    (kerndat_init e k).2.2 = [Probe.shmemdev] ∧
    Probe.dirtyTrack ∉ (kerndat_init e k).2.2 ∧
    Probe.zeroPage ∉ (kerndat_init e k).2.2 ∧
    Probe.lastCap ∉ (kerndat_init e k).2.2 := by
  have heq : kerndat_init e k =
      ((kerndat_get_shmemdev e.shmem k).1, (kerndat_get_shmemdev e.shmem k).2,
        [Probe.shmemdev]) := by
    simp [kerndat_init, h]
  rw [heq]
  exact ⟨rfl, rfl, by simp, by simp, by simp⟩

/-- Witness for C3: a run whose shared-memory test mapping fails. -/
theorem kerndat_init_short_circuit_witness :
    (kerndat_init ⟨⟨false, .ok 0⟩, ⟨true, true, .ok 0, false⟩,
        ⟨true, true, (0, 5)⟩, .ok 36⟩ kdatInit).2.2 = [Probe.shmemdev] :=
  (kerndat_init_short_circuit ⟨⟨false, .ok 0⟩, ⟨true, true, .ok 0, false⟩,
      ⟨true, true, (0, 5)⟩, .ok 36⟩ kdatInit (by decide)).2.1

/-- C4: on every run of the dirty-tracking probe that reaches the pagemap
test and finds the soft-dirty bit unset, the probe returns -1 when
`opts.track_mem` demands tracking, and returns 0 with `has_dirty_track`
left false otherwise. -/
theorem dirty_track_unset_bit (e : DirtyTrackEnv) (k : KerndatS)
    (hm : e.mmapOk = true) (ho : e.openOk = true)
    (hb : pmapOf e &&& PME_SOFT_DIRTY = 0) (hk : k.has_dirty_track = false) :
    (e.trackMem = true → (kerndat_get_dirty_track e k).1 = -1) ∧
    (e.trackMem = false → (kerndat_get_dirty_track e k).1 = 0 ∧
      (kerndat_get_dirty_track e k).2.has_dirty_track = false) := by
  constructor
  · intro ht
    simp [kerndat_get_dirty_track, hm, ho, hb, ht]
  · intro ht
    simp [kerndat_get_dirty_track, hm, ho, hb, ht, hk]

/-- Witness for C4: successful mmap and open, pagemap entry 0, tracking
not demanded. -/
theorem dirty_track_unset_bit_witness :
    (kerndat_get_dirty_track ⟨true, true, .ok 0, false⟩ kdatInit).1 = 0 ∧
    (kerndat_get_dirty_track ⟨true, true, .ok 0, false⟩ kdatInit).2.has_dirty_track
      = false :=
  (dirty_track_unset_bit ⟨true, true, .ok 0, false⟩ kdatInit rfl rfl (by decide)
    rfl).2 rfl

/-- C9: a failed read of the pagemap entry behaves exactly like the
soft-dirty bit being absent: the run is indistinguishable from one whose
read returns a zero entry, it succeeds when tracking is not demanded
(leaving `has_dirty_track` unchanged) and fails hard when it is; a read
failure alone never produces a distinct error result. -/
theorem dirty_track_read_failure (e : DirtyTrackEnv) (k : KerndatS)
    (hm : e.mmapOk = true) (ho : e.openOk = true)
    (hr : e.readResult = .error ()) :
    kerndat_get_dirty_track e k =
      kerndat_get_dirty_track { e with readResult := .ok 0 } k ∧
    (e.trackMem = true → (kerndat_get_dirty_track e k).1 = -1) ∧
    (e.trackMem = false → (kerndat_get_dirty_track e k).1 = 0 ∧
      (kerndat_get_dirty_track e k).2.has_dirty_track = k.has_dirty_track) := by
  have hp : pmapOf e = 0 := by simp [pmapOf, hr]
  refine ⟨?_, ?_, ?_⟩
  · simp [kerndat_get_dirty_track, pmapOf, hr]
  · intro ht
    simp [kerndat_get_dirty_track, hm, ho, hp, ht]
  · intro ht
    simp [kerndat_get_dirty_track, hm, ho, hp, ht]

/-- Witness for C9: a failed pagemap read with tracking not demanded. -/
theorem dirty_track_read_failure_witness :
    (kerndat_get_dirty_track ⟨true, true, .error (), false⟩ kdatInit).1 = 0 ∧
    (kerndat_get_dirty_track ⟨true, true, .error (), false⟩ kdatInit).2.has_dirty_track
      = kdatInit.has_dirty_track :=
  (dirty_track_read_failure ⟨true, true, .error (), false⟩ kdatInit rfl rfl
    rfl).2.2 rfl

/-- C5: `sys_memfd_create(NULL, 0)` returning `-ENOSYS` makes the probe
record `has_memfd = false` and succeed, `-EFAULT` makes it record
`has_memfd = true` and succeed, and any other value makes the restore-phase
orchestrator return a hard non-zero error. -/
theorem memfd_probe_classification (e : RestoreEnv) (k : KerndatS) :
    (e.memfdRet = -ENOSYS →
      (kerndat_has_memfd_create e.memfdRet k).2.has_memfd = false ∧
      (kerndat_has_memfd_create e.memfdRet k).1 = false) ∧
    (e.memfdRet = -EFAULT →
      (kerndat_has_memfd_create e.memfdRet k).2.has_memfd = true ∧
      (kerndat_has_memfd_create e.memfdRet k).1 = false) ∧
    (e.memfdRet ≠ -ENOSYS → e.memfdRet ≠ -EFAULT →
      (kerndat_init_rst e k).1 ≠ 0) := by
  refine ⟨?_, ?_, ?_⟩
  · intro h
    simp [kerndat_has_memfd_create, h, cBool]
  · intro h
    have hne : e.memfdRet ≠ -ENOSYS := by
      rw [h]; decide
    simp [kerndat_has_memfd_create, h, hne, cBool, ENOSYS, EFAULT]
  · intro h1 h2
    simp only [kerndat_init_rst, tcp_read_sysctl_limits]
    rcases e.tcpRes with _ | ⟨wv, rv⟩ <;>
      rcases hl : e.lastCapRes with _ | v <;>
        simp [get_last_cap, hl, kerndat_has_memfd_create, h1, h2, cBool, cInt]

/-- Witness for C5 at the three concrete return values -38, -14 and -5. -/
theorem memfd_probe_classification_witness :
    (kerndat_has_memfd_create (-38) kdatInit).2.has_memfd = false ∧
    (kerndat_has_memfd_create (-14) kdatInit).2.has_memfd = true ∧
    (kerndat_init_rst ⟨none, .ok 36, -5⟩ kdatInit).1 ≠ 0 :=
  ⟨((memfd_probe_classification ⟨none, .ok 36, -38⟩ kdatInit).1 rfl).1,
   ((memfd_probe_classification ⟨none, .ok 36, -14⟩ kdatInit).2.1 rfl).1,
   (memfd_probe_classification ⟨none, .ok 36, -5⟩ kdatInit).2.2 (by decide)
     (by decide)⟩

/-- C8: when the sysctl read of the TCP vectors fails,
`tcp_read_sysctl_limits` leaves the cache untouched (so the defaults
2 MiB and 3 MiB survive) and returns 0, and the restore-phase orchestrator
continues to the capability-bound probe. -/
theorem tcp_sysctl_soft_failure (e : RestoreEnv) (k : KerndatS)
    (he : e.tcpRes = none) :
    tcp_read_sysctl_limits e.tcpRes k = (0, k) ∧
    kdatInit.tcp_max_wshare = 2 * 2 ^ 20 ∧
    kdatInit.tcp_max_rshare = 3 * 2 ^ 20 ∧
    Probe.lastCap ∈ (kerndat_init_rst e k).2.2 := by
  refine ⟨?_, rfl, rfl, ?_⟩
  · rw [he]; rfl
  · simp only [kerndat_init_rst, he, tcp_read_sysctl_limits]
    rcases hl : e.lastCapRes with _ | v <;> simp [get_last_cap, hl]

/-- Witness for C8: a run with the sysctl gateway unavailable. -/
theorem tcp_sysctl_soft_failure_witness :
    tcp_read_sysctl_limits (none : SysctlTcpRes) kdatInit = (0, kdatInit) ∧
    Probe.lastCap ∈ (kerndat_init_rst ⟨none, .ok 36, -38⟩ kdatInit).2.2 :=
  ⟨(tcp_sysctl_soft_failure ⟨none, .ok 36, -38⟩ kdatInit rfl).1,
   (tcp_sysctl_soft_failure ⟨none, .ok 36, -38⟩ kdatInit rfl).2.2.2⟩

/-- C10: an unexpected return value (neither `-ENOSYS` nor `-EFAULT`)
leaves the whole cache unchanged, and on every path the probe modifies no
field of the cache other than `has_memfd`. -/
theorem memfd_frame_effect (r : Int) (k : KerndatS) :
    (r ≠ -ENOSYS → r ≠ -EFAULT → (kerndat_has_memfd_create r k).2 = k) ∧
    ((kerndat_has_memfd_create r k).2.shmem_dev = k.shmem_dev ∧
     (kerndat_has_memfd_create r k).2.has_dirty_track = k.has_dirty_track ∧
     (kerndat_has_memfd_create r k).2.zero_page_pfn = k.zero_page_pfn ∧
     (kerndat_has_memfd_create r k).2.last_cap = k.last_cap ∧
     (kerndat_has_memfd_create r k).2.tcp_max_wshare = k.tcp_max_wshare ∧
     (kerndat_has_memfd_create r k).2.tcp_max_rshare = k.tcp_max_rshare) := by
  constructor
  · intro h1 h2
    simp [kerndat_has_memfd_create, h1, h2]
  · simp only [kerndat_has_memfd_create, ENOSYS, EFAULT]
    by_cases h1 : r = -38 <;> by_cases h2 : r = -14 <;> simp [h1, h2]

/-- Witness for C10 at the unexpected return value -5. -/
theorem memfd_frame_effect_witness :
    (kerndat_has_memfd_create (-5) kdatInit).2 = kdatInit :=
  (memfd_frame_effect (-5) kdatInit).1 (by decide) (by decide)

/-- Helper: when a `kerndat_get_fs_stat` call returns a record, the table
afterwards holds that record at the queried key. -/
theorem fs_stat_result_table (env : Nat → FsEnv) (which : Nat)
    (tbl : Nat → CStat) (st : CStat)
    (h1 : (kerndat_get_fs_stat env which tbl).result = some st) :
    (kerndat_get_fs_stat env which tbl).table which = st := by
  unfold kerndat_get_fs_stat at h1 ⊢
  by_cases hge : KERNDAT_FS_STAT_MAX ≤ which
  · rw [if_pos hge] at h1
    simp at h1
  · rw [if_neg hge] at h1 ⊢
    by_cases hs : (tbl which).st_dev ≠ 0
    · rw [if_pos hs] at h1 ⊢
      injection h1
    · rw [if_neg hs] at h1 ⊢
      rcases hfs : (env which).statfsRes with _ | ftype
      · simp [hfs] at h1
      · simp only [hfs] at h1 ⊢
        by_cases hmag : ftype ≠ fsMagicOf which
        · rw [if_pos hmag] at h1
          simp at h1
        · rw [if_neg hmag] at h1 ⊢
          rcases hst : (env which).statRes with _ | st2
          · simp [hst] at h1
          · simp only [hst, Option.some.injEq] at h1 ⊢
            simp [h1]

/-- C6 counterexample: when the first (successful) probe of an unprobed
entry caches a stat record whose device number happens to be the sentinel
value 0, the second call with the same key issues `statfs` again instead of
returning the cached record with no syscall, so the two calls perform two
underlying stat probes rather than exactly one. -/
theorem fs_stat_cache_sentinel_cex :
    (kerndat_get_fs_stat (fun _ => ⟨.ok DEVPTS_SUPER_MAGIC, .ok ⟨0, 7⟩⟩) 0
        fsTableInit).result = some ⟨0, 7⟩ ∧
    (kerndat_get_fs_stat (fun _ => ⟨.ok DEVPTS_SUPER_MAGIC, .ok ⟨0, 7⟩⟩) 0
        (kerndat_get_fs_stat (fun _ => ⟨.ok DEVPTS_SUPER_MAGIC, .ok ⟨0, 7⟩⟩) 0
          fsTableInit).table).nStatfs = 1 := by
  constructor <;> rfl

/-- C6 amended: for every in-range key, after a first call that succeeds
with a record whose device number is non-zero (the "populated" sentinel),
the second call with the same key returns the cached record and issues no
`statfs` or `stat` syscall. -/
theorem fs_stat_second_call_cached (env : Nat → FsEnv) (which : Nat)
    (tbl : Nat → CStat) (st : CStat)
    (hw : which < KERNDAT_FS_STAT_MAX)
    (h1 : (kerndat_get_fs_stat env which tbl).result = some st)
    (hd : st.st_dev ≠ 0) :
    kerndat_get_fs_stat env which (kerndat_get_fs_stat env which tbl).table =
      ⟨some st, (kerndat_get_fs_stat env which tbl).table, 0, 0⟩ := by
  have htb := fs_stat_result_table env which tbl st h1
  set t1 := (kerndat_get_fs_stat env which tbl).table with ht1
  have hdev : (t1 which).st_dev ≠ 0 := by
    rw [htb]
    exact hd
  unfold kerndat_get_fs_stat
  rw [if_neg (not_le.2 hw), if_pos hdev, htb]

/-- Witness for C6's amended theorem: a devpts probe caching device 3. -/
theorem fs_stat_second_call_cached_witness :
    kerndat_get_fs_stat (fun _ => ⟨.ok DEVPTS_SUPER_MAGIC, .ok ⟨3, 7⟩⟩) 0
        (kerndat_get_fs_stat (fun _ => ⟨.ok DEVPTS_SUPER_MAGIC, .ok ⟨3, 7⟩⟩) 0
          fsTableInit).table =
      ⟨some ⟨3, 7⟩,
        (kerndat_get_fs_stat (fun _ => ⟨.ok DEVPTS_SUPER_MAGIC, .ok ⟨3, 7⟩⟩) 0
          fsTableInit).table, 0, 0⟩ :=
  fs_stat_second_call_cached (fun _ => ⟨.ok DEVPTS_SUPER_MAGIC, .ok ⟨3, 7⟩⟩) 0
    fsTableInit ⟨3, 7⟩ (by decide) rfl (by decide)

/-- C7: for every in-range key whose entry is unprobed, if the `statfs`
query fails or the reported magic differs from the entry's expected magic,
the call returns NULL, the table is unchanged (nothing is cached), and a
subsequent call with the same key re-attempts the probe (it issues a
`statfs` again, under any environment). -/
theorem fs_stat_fail_no_cache (env env2 : Nat → FsEnv) (which : Nat)
    (tbl : Nat → CStat)
    (hw : which < KERNDAT_FS_STAT_MAX)
    (h0 : (tbl which).st_dev = 0)
    (hfail : (env which).statfsRes = .error () ∨
      ∃ ftype, (env which).statfsRes = .ok ftype ∧ ftype ≠ fsMagicOf which) :
    (kerndat_get_fs_stat env which tbl).result = none ∧
    (kerndat_get_fs_stat env which tbl).table = tbl ∧
    (kerndat_get_fs_stat env2 which
      (kerndat_get_fs_stat env which tbl).table).nStatfs = 1 := by
  have key : kerndat_get_fs_stat env which tbl = ⟨none, tbl, 1, 0⟩ := by
    unfold kerndat_get_fs_stat
    rw [if_neg (not_le.2 hw), if_neg (by simp [h0])]
    rcases hfail with hf | ⟨ftype, hf, hmag⟩
    · rw [hf]
    · simp only [hf]
      rw [if_pos hmag]
  have hprobe : ∀ e3 : Nat → FsEnv, (kerndat_get_fs_stat e3 which tbl).nStatfs = 1 := by
    intro e3
    unfold kerndat_get_fs_stat
    rw [if_neg (not_le.2 hw), if_neg (by simp [h0])]
    rcases hfs : (e3 which).statfsRes with _ | ftype
    · simp [hfs]
    · simp only [hfs]
      by_cases hmag : ftype ≠ fsMagicOf which
      · rw [if_pos hmag]
      · rw [if_neg hmag]
        rcases hst : (e3 which).statRes with _ | st2 <;> simp [hst]
  exact ⟨by rw [key], by rw [key], by rw [key]; exact hprobe env2⟩

/-- Witness for C7: a statfs failure on the devpts entry. -/
theorem fs_stat_fail_no_cache_witness :
    (kerndat_get_fs_stat (fun _ => ⟨.error (), .ok ⟨3, 7⟩⟩) 0 fsTableInit).result
        = none ∧
    (kerndat_get_fs_stat (fun _ => ⟨.ok TMPFS_MAGIC, .ok ⟨3, 7⟩⟩) 0
      (kerndat_get_fs_stat (fun _ => ⟨.error (), .ok ⟨3, 7⟩⟩) 0
        fsTableInit).table).nStatfs = 1 :=
  ⟨(fs_stat_fail_no_cache (fun _ => ⟨.error (), .ok ⟨3, 7⟩⟩)
      (fun _ => ⟨.ok TMPFS_MAGIC, .ok ⟨3, 7⟩⟩) 0 fsTableInit (by decide) rfl
      (Or.inl rfl)).1,
   (fs_stat_fail_no_cache (fun _ => ⟨.error (), .ok ⟨3, 7⟩⟩)
      (fun _ => ⟨.ok TMPFS_MAGIC, .ok ⟨3, 7⟩⟩) 0 fsTableInit (by decide) rfl
      (Or.inl rfl)).2.2⟩

end Kerndat
